import Mathlib

/-!
Verification of the binary trust gate of the `gomreport` package.

The development shallowly embeds the functions of `omreport.go` that implement
the gate — `fileSha256`, `allowedOMCLIProxyBinary`, `NewOMReporter`,
`SuspiciousOMCLIProxyBinary`, `Report` — together with the enum `String`
methods of the report types. Files are modelled as content plus Go file-mode
bits and metadata; the filesystem is a partial map from paths to such entries;
the SHA-256 digest is implemented in full over byte lists, and Go integer
arithmetic is carried out on `Nat` with explicit truncation modulo `2 ^ 32`.
-/

namespace Omreport

/-! ## The SHA-256 digest (Go `crypto/sha256`, as used by `fileSha256`) -/

/-- One 32-bit right rotation over `Nat`, truncated to 32 bits. -/
def rotr (n x : Nat) : Nat := ((x >>> n) ||| (x <<< (32 - n))) % 2 ^ 32

/-- The big Sigma-0 word function of SHA-256. -/
def bigSigma0 (x : Nat) : Nat := rotr 2 x ^^^ rotr 13 x ^^^ rotr 22 x

/-- The big Sigma-1 word function of SHA-256. -/
def bigSigma1 (x : Nat) : Nat := rotr 6 x ^^^ rotr 11 x ^^^ rotr 25 x

/-- The small sigma-0 word function of SHA-256. -/
def smallSigma0 (x : Nat) : Nat := rotr 7 x ^^^ rotr 18 x ^^^ (x >>> 3)

/-- The small sigma-1 word function of SHA-256. -/
def smallSigma1 (x : Nat) : Nat := rotr 17 x ^^^ rotr 19 x ^^^ (x >>> 10)

/-- The choice word function of SHA-256. -/
def ch (x y z : Nat) : Nat := (x &&& y) ^^^ ((x ^^^ 0xFFFFFFFF) &&& z)

/-- The majority word function of SHA-256. -/
def maj (x y z : Nat) : Nat := (x &&& y) ^^^ (x &&& z) ^^^ (y &&& z)

/-- The 64 SHA-256 round constants. -/
def K : List Nat :=
  [1116352408, 1899447441, 3049323471, 3921009573,
   961987163, 1508970993, 2453635748, 2870763221,
   3624381080, 310598401, 607225278, 1426881987,
   1925078388, 2162078206, 2614888103, 3248222580,
   3835390401, 4022224774, 264347078, 604807628,
   770255983, 1249150122, 1555081692, 1996064986,
   2554220882, 2821834349, 2952996808, 3210313671,
   3336571891, 3584528711, 113926993, 338241895,
   666307205, 773529912, 1294757372, 1396182291,
   1695183700, 1986661051, 2177026350, 2456956037,
   2730485921, 2820302411, 3259730800, 3345764771,
   3516065817, 3600352804, 4094571909, 275423344,
   430227734, 506948616, 659060556, 883997877,
   958139571, 1322822218, 1537002063, 1747873779,
   1955562222, 2024104815, 2227730452, 2361852424,
   2428436474, 2756734187, 3204031479, 3329325298]

/-- The SHA-256 working state: eight 32-bit words. -/
structure Hash8 where
  a : Nat
  b : Nat
  c : Nat
  d : Nat
  e : Nat
  f : Nat
  g : Nat
  h : Nat
deriving DecidableEq

/-- The SHA-256 initial hash value. -/
def initH : Hash8 :=
  ⟨1779033703, 3144134277, 1013904242, 2773480762, 1359893119, 2600822924, 528734635, 1541459225⟩

/-- One SHA-256 compression round. -/
def round (st : Hash8) (kw : Nat × Nat) : Hash8 :=
  let t1 := (st.h + bigSigma1 st.e + ch st.e st.f st.g + kw.1 + kw.2) % 2 ^ 32
  let t2 := (bigSigma0 st.a + maj st.a st.b st.c) % 2 ^ 32
  { a := (t1 + t2) % 2 ^ 32, b := st.a, c := st.b, d := st.c,
    e := (st.d + t1) % 2 ^ 32, f := st.e, g := st.f, h := st.g }

/-- Extend the 16 message words to 64; the list is kept most-recent-first. -/
def extendSchedule : Nat → List Nat → List Nat
  | 0, rws => rws
  | n + 1, rws =>
    let w := (smallSigma1 (rws.getD 1 0) + rws.getD 6 0 +
              smallSigma0 (rws.getD 14 0) + rws.getD 15 0) % 2 ^ 32
    extendSchedule n (w :: rws)

/-- The full 64-word message schedule of one block. -/
def schedule (ws : List Nat) : List Nat := (extendSchedule 48 ws.reverse).reverse

/-- Parse big-endian 32-bit words (at most the first argument many) from a byte list. -/
def toWords : Nat → List Nat → List Nat
  | 0, _ => []
  | n + 1, b0 :: b1 :: b2 :: b3 :: rest =>
    (b0 * 2 ^ 24 + b1 * 2 ^ 16 + b2 * 2 ^ 8 + b3) % 2 ^ 32 :: toWords n rest
  | _ + 1, _ => []

/-- Compress one 64-byte block into the state. -/
def compress (st : Hash8) (block : List Nat) : Hash8 :=
  let ws := schedule (toWords 16 block)
  let t := (K.zip ws).foldl round st
  { a := (st.a + t.a) % 2 ^ 32, b := (st.b + t.b) % 2 ^ 32,
    c := (st.c + t.c) % 2 ^ 32, d := (st.d + t.d) % 2 ^ 32,
    e := (st.e + t.e) % 2 ^ 32, f := (st.f + t.f) % 2 ^ 32,
    g := (st.g + t.g) % 2 ^ 32, h := (st.h + t.h) % 2 ^ 32 }

/-- The message bit length as 8 big-endian bytes. -/
def lengthBytes (n : Nat) : List Nat :=
  [n / 2 ^ 56 % 256, n / 2 ^ 48 % 256, n / 2 ^ 40 % 256, n / 2 ^ 32 % 256,
   n / 2 ^ 24 % 256, n / 2 ^ 16 % 256, n / 2 ^ 8 % 256, n % 256]

/-- The SHA-256 padding: a 0x80 byte, zeros to 56 mod 64, then the 64-bit bit length. -/
def padMessage (msg : List Nat) : List Nat :=
  msg ++ 0x80 :: List.replicate ((119 - msg.length % 64) % 64) 0 ++ lengthBytes (8 * msg.length)

/-- Split a byte list into successive 64-byte chunks, one per count. -/
def toBlocksAux : Nat → List Nat → List (List Nat)
  | 0, _ => []
  | n + 1, bs => bs.take 64 :: toBlocksAux n (bs.drop 64)

/-- Split a (padded) byte list into its 64-byte blocks. -/
def toBlocks (bs : List Nat) : List (List Nat) := toBlocksAux (bs.length / 64) bs

/-- A 32-bit word as 4 big-endian bytes. -/
def wordBytes (w : Nat) : List Nat := [w / 2 ^ 24 % 256, w / 2 ^ 16 % 256, w / 2 ^ 8 % 256, w % 256]

/-- The SHA-256 digest of a byte list: the 32 digest bytes. -/
def sha256 (msg : List Nat) : List Nat :=
  let st := (toBlocks (padMessage msg)).foldl compress initH
  wordBytes st.a ++ wordBytes st.b ++ wordBytes st.c ++ wordBytes st.d ++
  wordBytes st.e ++ wordBytes st.f ++ wordBytes st.g ++ wordBytes st.h

/-- Base-256 little-endian value of a byte list; injective on equal-length byte lists. -/
def encodeBytes : List Nat → Nat
  | [] => 0
  | b :: bs => b + 256 * encodeBytes bs

/-! ## The filesystem model -/

/-- Go file-mode bit `os.ModeDir`. -/
def ModeDir : Nat := 2 ^ 31

/-- Go file-mode bit `os.ModeSymlink`. -/
def ModeSymlink : Nat := 2 ^ 27

/-- One directory entry as the model environment presents it: the byte content
read through the path, the Go file-mode bits that `os.Lstat` reports, whether a
streaming read of the opened file fails midway, whether `Close` fails, and
identity metadata (modification time, inode) that the gate never consults. -/
structure FileInfo where
  content : List Nat
  mode : Nat
  readFails : Bool
  closeFails : Bool
  modTime : Nat
  inode : Nat
deriving DecidableEq

/-- A filesystem: a partial map from paths to entries; `none` means the path
does not exist, so `os.Lstat` and `os.Open` fail on it. -/
abbrev FS : Type := String → Option FileInfo

/-- The error values the gate can surface, one constructor per `error` the Go
code constructs or propagates. -/
inductive OMError where
  | badName : OMError
  | isSymlink : String → OMError
  | statError : OMError
  | openError : OMError
  | readError : OMError
  | closeError : OMError
  | checksumMismatch : List Nat → List Nat → OMError
deriving DecidableEq

/-- Model of Go `path/filepath.Base` (unix rules): empty path gives `"."`,
trailing slashes are stripped, the last component is returned, and an
all-slashes path gives `"/"`. -/
def filepathBase (path : String) : String :=
  if path = "" then "."
  else
    let stripped := path.toList.reverse.dropWhile (fun c => c = '/')
    let base := (stripped.takeWhile (fun c => c ≠ '/')).reverse
    if base = [] then "/" else String.mk base

/-- Constant `DefaultOMCLIProxyDir` of the source. -/
def DefaultOMCLIProxyDir : String := "/opt/dell/srvadmin/sbin"

/-- Constant `DefaultOMCLIProxyBinaryName` of the source. -/
def DefaultOMCLIProxyBinaryName : String := "omcliproxy"

/-- Constant `DefaultOMReportCommandName` of the source. -/
def DefaultOMReportCommandName : String := "omreport"

/-! ## The gate (`omreport.go`) -/

/-- The fields of the `OMReport` struct. -/
structure OMReport where
  omCLIProxyPath : String
  enhancedSecurityMode : Bool
  sha256Checksum : List Nat
deriving DecidableEq

/-- The fields of the `Config` struct. -/
structure Config where
  OMCLIProxyPath : String
  EnhancedSecurityMode : Bool
deriving DecidableEq

/-- The outcome of one run of `fileSha256`: the returned value, whether the
file handle was acquired (`os.Open` succeeded), and whether `f.Close()` was
invoked on it before returning. -/
structure FileSha256Result where
  res : Except OMError (List Nat)
  opened : Bool
  closed : Bool

/-- Instrumented trace of `fileSha256` on the entry behind the path: open the
file (failing if the path does not exist), stream it through SHA-256 with
`io.Copy` — returning the read error, without any `Close`, when the read fails
midway — then call `f.Close()`, returning its error on failure, and finally
return the digest. -/
def fileSha256Run (entry : Option FileInfo) : FileSha256Result :=
  match entry with
  | none => ⟨.error .openError, false, false⟩
  | some fi =>
    if fi.readFails then ⟨.error .readError, true, false⟩
    else if fi.closeFails then ⟨.error .closeError, true, true⟩
    else ⟨.ok (sha256 fi.content), true, true⟩

/-- Function `fileSha256` of the source: the value returned to the caller. -/
def fileSha256 (fs : FS) (path : String) : Except OMError (List Nat) :=
  (fileSha256Run (fs path)).res

/-- Method `allowedOMCLIProxyBinary`: the base name must equal
`omcliproxy`, the path must be statable, and the `Lstat` mode must not
have the symlink bit. -/
def allowedOMCLIProxyBinary (fs : FS) (om : OMReport) : Except OMError Unit :=
  if filepathBase om.omCLIProxyPath ≠ DefaultOMCLIProxyBinaryName then
    .error .badName
  else
    match fs om.omCLIProxyPath with
    | none => .error .statError
    | some fi =>
      if fi.mode &&& ModeSymlink ≠ 0 then .error (.isSymlink om.omCLIProxyPath)
      else .ok ()

/-- Function `NewOMReporter`: build the struct from the config, run
`allowedOMCLIProxyBinary`, then compute and store the baseline checksum;
any failure aborts construction with that error. -/
def NewOMReporter (fs : FS) (cfg : Config) : Except OMError OMReport :=
  match allowedOMCLIProxyBinary fs
      { omCLIProxyPath := cfg.OMCLIProxyPath,
        enhancedSecurityMode := cfg.EnhancedSecurityMode,
        sha256Checksum := [] } with
  | .error e => .error e
  | .ok _ =>
    match fileSha256 fs cfg.OMCLIProxyPath with
    | .error e => .error e
    | .ok checksum =>
      .ok { omCLIProxyPath := cfg.OMCLIProxyPath,
            enhancedSecurityMode := cfg.EnhancedSecurityMode,
            sha256Checksum := checksum }

/-- Method `SuspiciousOMCLIProxyBinary`: recompute the checksum of the stored
path; propagate any failure; report a mismatch error carrying the current and
the stored checksum when they are not byte-for-byte equal. -/
def SuspiciousOMCLIProxyBinary (fs : FS) (om : OMReport) : Except OMError Unit :=
  match fileSha256 fs om.omCLIProxyPath with
  | .error e => .error e
  | .ok currentChecksum =>
    if currentChecksum ≠ om.sha256Checksum then
      .error (.checksumMismatch currentChecksum om.sha256Checksum)
    else .ok ()

/-- What `Report` does after its checks: either return an error, or hand the
path and the argument list to `exec.Command`. -/
inductive ReportAction where
  | failed : OMError → ReportAction
  | invoked : String → List String → ReportAction
deriving DecidableEq

/-- The observable outcome of one `Report` call: the receiver as left behind
(the method can assign the default path into it), the action taken, and how
many times the file was streamed through SHA-256 during the call. -/
structure ReportResult where
  om' : OMReport
  action : ReportAction
  sha256Computations : Nat
deriving DecidableEq

/-- The default path `filepath.Join(DefaultOMCLIProxyDir, DefaultOMCLIProxyBinaryName)`. -/
def defaultOMCLIProxyPath : String :=
  DefaultOMCLIProxyDir ++ "/" ++ DefaultOMCLIProxyBinaryName

/-- Method `Report`: fall back to the default path when the stored path is
empty, run the tamper check first when enhanced security mode is on, then
invoke the binary on `omreport` plus the arguments plus `-fmt xml`. -/
def Report (fs : FS) (om : OMReport) (args : List String) : ReportResult :=
  let om1 := if om.omCLIProxyPath = "" then
    { om with omCLIProxyPath := defaultOMCLIProxyPath } else om
  if om1.enhancedSecurityMode then
    match SuspiciousOMCLIProxyBinary fs om1 with
    | .error e => ⟨om1, .failed e, 1⟩
    | .ok _ =>
      ⟨om1, .invoked om1.omCLIProxyPath
        (DefaultOMReportCommandName :: args ++ ["-fmt", "xml"]), 1⟩
  else
    ⟨om1, .invoked om1.omCLIProxyPath
      (DefaultOMReportCommandName :: args ++ ["-fmt", "xml"]), 0⟩

/-! ## The enum `String` methods (`omreport_types.go`) -/

/-- Model of Go string conversion of an integer (`string(i)`): the one-rune
string of the code point, with values outside the valid code-point range
(negative, beyond the maximum code point, or a surrogate half) replaced by the
Unicode replacement character. -/
def goStringOfInt (n : Int) : String :=
  if 0 ≤ n ∧ n ≤ 0x10FFFF ∧ (n < 0xD800 ∨ 0xDFFF < n) then
    String.singleton (Char.ofNat n.toNat)
  else String.singleton (Char.ofNat 0xFFFD)

/-- Constant `StatusOK`. -/
def StatusOK : Int := 2

/-- Constant `StatusNonCritical`. -/
def StatusNonCritical : Int := 3

/-- Constant `StatusCritical`. -/
def StatusCritical : Int := 4

/-- Method `String` of `Status`. -/
def statusString (s : Int) : String :=
  if s = StatusCritical then "Critical"
  else if s = StatusOK then "OK"
  else if s = StatusNonCritical then "Non-critical"
  else "Unknown status code " ++ goStringOfInt s

/-- Constant `StateReady`. -/
def StateReady : Int := 1

/-- Constant `StateFailed`. -/
def StateFailed : Int := 2

/-- Constant `StateOnline`. -/
def StateOnline : Int := 4

/-- Constant `StateOffline`. -/
def StateOffline : Int := 8

/-- Constant `StateDegraded`. -/
def StateDegraded : Int := 32

/-- Constant `StateNonRAID`. -/
def StateNonRAID : Int := 4096

/-- Constant `StateReplacing`. -/
def StateReplacing : Int := 2097152

/-- Constant `StateRebuilding`. -/
def StateRebuilding : Int := 8388608

/-- Constant `StateBackgroundInitialization`. -/
def StateBackgroundInitialization : Int := 34359738368

/-- Constant `StateForeign`. -/
def StateForeign : Int := 274877906944

/-- Constant `StateClear`. -/
def StateClear : Int := 549755813888

/-- Constant `StateDegradedRedundancy`. -/
def StateDegradedRedundancy : Int := 9007199254740992

/-- Method `String` of `State`. -/
def stateString (s : Int) : String :=
  if s = StateOnline then "Online"
  else if s = StateBackgroundInitialization then "Background Initialization"
  else if s = StateClear then "Clear"
  else if s = StateDegraded then "Degraded"
  else if s = StateDegradedRedundancy then "Degraded Redundancy"
  else if s = StateFailed then "Failed"
  else if s = StateForeign then "Foreign"
  else if s = StateNonRAID then "Non-RAID"
  else if s = StateOffline then "Offline"
  else if s = StateReady then "Ready"
  else if s = StateRebuilding then "Rebuilding"
  else if s = StateReplacing then "Replacing"
  else "Unknown state code " ++ goStringOfInt s

/-- Constant `BusProtocolSCSI`. -/
def BusProtocolSCSI : Int := 1

/-- Constant `BusProtocolIDE`. -/
def BusProtocolIDE : Int := 2

/-- Constant `BusProtocolSATA`. -/
def BusProtocolSATA : Int := 7

/-- Constant `BusProtocolSAS`. -/
def BusProtocolSAS : Int := 8

/-- Constant `BusProtocolPCIe`. -/
def BusProtocolPCIe : Int := 9

/-- Method `String` of `BusProtocol`. -/
def busProtocolString (b : Int) : String :=
  if b = BusProtocolIDE then "IDE"
  else if b = BusProtocolPCIe then "PCIe"
  else if b = BusProtocolSAS then "SAS"
  else if b = BusProtocolSATA then "SATA"
  else if b = BusProtocolSCSI then "SCSI"
  else "Unknown bus protocol code " ++ goStringOfInt b

/-- Constant `LayoutRAID0`. -/
def LayoutRAID0 : Int := 2

/-- Constant `LayoutRAID1`. -/
def LayoutRAID1 : Int := 4

/-- Constant `LayoutRAID5`. -/
def LayoutRAID5 : Int := 64

/-- Constant `LayoutRAID6`. -/
def LayoutRAID6 : Int := 128

/-- Constant `LayoutRAID60`. -/
def LayoutRAID60 : Int := 262144

/-- Method `String` of `Layout`. -/
def layoutString (l : Int) : String :=
  if l = LayoutRAID0 then "RAID-0"
  else if l = LayoutRAID1 then "RAID-1"
  else if l = LayoutRAID5 then "RAID-5"
  else if l = LayoutRAID6 then "RAID-6"
  else if l = LayoutRAID60 then "RAID-60"
  else "Unknown layout code " ++ goStringOfInt l

/-! ## Concrete inputs used to exercise the definitions -/

/-- A plain regular file with the given content: no special mode bits, reads
and closes succeed. -/
def plainFile (content : List Nat) : FileInfo :=
  { content := content, mode := 0, readFails := false, closeFails := false,
    modTime := 0, inode := 0 }

/-- A filesystem holding exactly one entry. -/
def singleFileFS (path : String) (fi : FileInfo) : FS :=
  fun p => if p = path then some fi else none

/-- The bytes of the string `foo`. -/
def fooBytes : List Nat := [102, 111, 111]

/-- The bytes of the string `bar`. -/
def barBytes : List Nat := [98, 97, 114]

/-- A regular file containing `foo`, registered under the expected name. -/
def fooFS : FS := singleFileFS "omcliproxy" (plainFile fooBytes)

/-- A regular file containing `bar` under the expected name: the `foo` file
after its bytes were altered. -/
def barFS : FS := singleFileFS "omcliproxy" (plainFile barBytes)

/-- A config pointing at the expected name with enhanced security mode on. -/
def fooCfg : Config := ⟨"omcliproxy", true⟩

/-- A config pointing at the expected name with enhanced security mode off. -/
def fooCfgOff : Config := ⟨"omcliproxy", false⟩

/-- The client that construction against the `foo` file yields. -/
def fooOM : OMReport := ⟨"omcliproxy", true, sha256 fooBytes⟩

/-- The client constructed against the `foo` file with enhanced mode off. -/
def fooOMOff : OMReport := ⟨"omcliproxy", false, sha256 fooBytes⟩

/-- The `foo` file restored with different modification time and inode. -/
def fooFileAltMeta : FileInfo :=
  { content := fooBytes, mode := 0, readFails := false, closeFails := false,
    modTime := 42, inode := 99 }

/-- A filesystem holding the restored `foo` file under fresh identity. -/
def fooFSAltMeta : FS := singleFileFS "omcliproxy" fooFileAltMeta

/-- A directory (not a regular file) named `omcliproxy`. -/
def dirFile : FileInfo :=
  { content := [], mode := ModeDir, readFails := false, closeFails := false,
    modTime := 0, inode := 0 }

/-- A filesystem whose `omcliproxy` entry is a directory. -/
def dirFS : FS := singleFileFS "omcliproxy" dirFile

/-- A receiver whose configured path is the directory entry. -/
def dirOM : OMReport := ⟨"omcliproxy", false, []⟩

/-- A symbolic link named `omcliproxy` resolving to valid `foo` content. -/
def linkFile : FileInfo :=
  { content := fooBytes, mode := ModeSymlink, readFails := false, closeFails := false,
    modTime := 0, inode := 0 }

/-- A filesystem whose `omcliproxy` entry is that symbolic link. -/
def linkFS : FS := singleFileFS "omcliproxy" linkFile

/-- A file that opens fine but whose streaming read fails midway. -/
def readFailFile : FileInfo :=
  { content := fooBytes, mode := 0, readFails := true, closeFails := false,
    modTime := 0, inode := 0 }

/-! ## Facts about the digest -/

/-- The digest always has 32 bytes (a 256-bit value). -/
theorem sha256_length (msg : List Nat) : (sha256 msg).length = 32 := rfl

/-- Every byte of a word rendering is below 256. -/
theorem wordBytes_lt (w : Nat) : ∀ x ∈ wordBytes w, x < 256 := by
  intro x hx
  simp only [wordBytes, List.mem_cons, List.not_mem_nil, or_false] at hx
  rcases hx with rfl | rfl | rfl | rfl
  all_goals exact Nat.mod_lt _ (by norm_num)

/-- Every byte of a digest is below 256. -/
theorem sha256_bytes_lt (msg : List Nat) : ∀ x ∈ sha256 msg, x < 256 := by
  intro x hx
  simp only [sha256, List.mem_append] at hx
  have hw : ∀ w : Nat, x ∈ wordBytes w → x < 256 := fun w => wordBytes_lt w x
  tauto

/-- The base-256 value of a byte list is below 256 to its length. -/
theorem encodeBytes_lt :
    ∀ l : List Nat, (∀ x ∈ l, x < 256) → encodeBytes l < 256 ^ l.length := by
  intro l
  induction l with
  | nil => intro _; simp [encodeBytes]
  | cons b bs ih =>
    intro h
    have hb : b < 256 := h b (List.mem_cons_self b bs)
    have hbs := ih (fun x hx => h x (List.mem_cons_of_mem b hx))
    simp only [encodeBytes, List.length_cons, pow_succ]
    omega

/-- Base-256 encoding is injective on equal-length byte lists. -/
theorem encodeBytes_inj :
    ∀ l1 l2 : List Nat, l1.length = l2.length → (∀ x ∈ l1, x < 256) →
      (∀ x ∈ l2, x < 256) → encodeBytes l1 = encodeBytes l2 → l1 = l2 := by
  intro l1
  induction l1 with
  | nil =>
    intro l2 hlen _ _ _
    exact (List.length_eq_zero.mp hlen.symm).symm
  | cons b bs ih =>
    intro l2 hlen h1 h2 henc
    cases l2 with
    | nil => simp at hlen
    | cons c cs =>
      have hb : b < 256 := h1 b (List.mem_cons_self b bs)
      have hc : c < 256 := h2 c (List.mem_cons_self c cs)
      simp only [encodeBytes] at henc
      have hlt1 := encodeBytes_lt bs (fun x hx => h1 x (List.mem_cons_of_mem b hx))
      have hlt2 := encodeBytes_lt cs (fun x hx => h2 x (List.mem_cons_of_mem c hx))
      have hsplit : b = c ∧ encodeBytes bs = encodeBytes cs := by omega
      have htail : bs = cs := by
        refine ih cs ?_ (fun x hx => h1 x (List.mem_cons_of_mem b hx))
          (fun x hx => h2 x (List.mem_cons_of_mem c hx)) hsplit.2
        simpa using hlen
      rw [hsplit.1, htail]

/-- As a map from an infinite set of messages into a finite set of 32-byte
digests, the digest function has two distinct messages with one digest. -/
theorem sha256_collision : ∃ c c' : List Nat, c ≠ c' ∧ sha256 c = sha256 c' := by
  obtain ⟨n, hn, m, hm, hnm, heq⟩ :=
    Finset.exists_ne_map_eq_of_card_lt_of_maps_to
      (s := Finset.range (256 ^ 32 + 1)) (t := Finset.range (256 ^ 32))
      (by simp [Finset.card_range])
      (f := fun j => encodeBytes (sha256 (List.replicate j 0)))
      (fun a _ => by
        have h1 := encodeBytes_lt (sha256 (List.replicate a 0)) (sha256_bytes_lt _)
        rw [sha256_length] at h1
        exact Finset.mem_range.mpr h1)
  refine ⟨List.replicate n 0, List.replicate m 0, ?_, ?_⟩
  · intro h
    exact hnm (by simpa using congrArg List.length h)
  · exact encodeBytes_inj _ _ (by rw [sha256_length, sha256_length])
      (sha256_bytes_lt _) (sha256_bytes_lt _) heq

/-! ## Facts about the gate -/

/-- Go `filepath.Base` maps the empty path to a dot. -/
theorem filepathBase_empty : filepathBase "" = "." := rfl

/-- A path whose base name is the expected binary name is not empty. -/
theorem path_ne_empty_of_base (path : String)
    (h : filepathBase path = DefaultOMCLIProxyBinaryName) : path ≠ "" := by
  intro he
  rw [he] at h
  exact absurd h (by decide)

/-- Validation success forces the expected base name. -/
theorem allowed_ok_name (fs : FS) (om : OMReport) (u : Unit)
    (h : allowedOMCLIProxyBinary fs om = .ok u) :
    filepathBase om.omCLIProxyPath = DefaultOMCLIProxyBinaryName := by
  by_contra hname
  simp [allowedOMCLIProxyBinary, hname] at h

/-- Validation success forces an existing, non-symlink entry. -/
theorem allowed_ok_entry (fs : FS) (om : OMReport) (u : Unit)
    (h : allowedOMCLIProxyBinary fs om = .ok u) :
    ∃ fi, fs om.omCLIProxyPath = some fi ∧ fi.mode &&& ModeSymlink = 0 := by
  by_cases hname : filepathBase om.omCLIProxyPath = DefaultOMCLIProxyBinaryName
  · cases hfs : fs om.omCLIProxyPath with
    | none => simp [allowedOMCLIProxyBinary, hname, hfs] at h
    | some fi =>
      by_cases hsym : fi.mode &&& ModeSymlink = 0
      · exact ⟨fi, rfl, hsym⟩
      · simp [allowedOMCLIProxyBinary, hname, hfs, hsym] at h
  · simp [allowedOMCLIProxyBinary, hname] at h

/-- The checksum of a readable entry is the digest of its content. -/
theorem fileSha256_ok_intro (fs : FS) (path : String) (fi : FileInfo)
    (hfi : fs path = some fi) (hr : fi.readFails = false) (hcl : fi.closeFails = false) :
    fileSha256 fs path = .ok (sha256 fi.content) := by
  simp [fileSha256, fileSha256Run, hfi, hr, hcl]

/-- A successful checksum run forces a readable entry and returns its digest. -/
theorem fileSha256_ok_content (fs : FS) (path : String) (fi : FileInfo) (c : List Nat)
    (hfi : fs path = some fi) (h : fileSha256 fs path = .ok c) :
    fi.readFails = false ∧ fi.closeFails = false ∧ c = sha256 fi.content := by
  cases hr : fi.readFails with
  | true =>
    have he : fileSha256 fs path = .error .readError := by
      simp [fileSha256, fileSha256Run, hfi, hr]
    rw [he] at h
    exact absurd h (by simp)
  | false =>
    cases hcl : fi.closeFails with
    | true =>
      have he : fileSha256 fs path = .error .closeError := by
        simp [fileSha256, fileSha256Run, hfi, hr, hcl]
      rw [he] at h
      exact absurd h (by simp)
    | false =>
      have h3 : fileSha256 fs path = .ok (sha256 fi.content) :=
        fileSha256_ok_intro fs path fi hfi hr hcl
      rw [h3] at h
      injection h with h2
      exact ⟨rfl, rfl, h2.symm⟩

/-- Construction succeeds on an existing, readable, non-symlink entry with the
expected base name, storing the digest of the entry's content. -/
theorem newOMReporter_ok_intro (fs : FS) (cfg : Config) (fi : FileInfo)
    (hname : filepathBase cfg.OMCLIProxyPath = DefaultOMCLIProxyBinaryName)
    (hfi : fs cfg.OMCLIProxyPath = some fi)
    (hsym : fi.mode &&& ModeSymlink = 0)
    (hr : fi.readFails = false) (hcl : fi.closeFails = false) :
    NewOMReporter fs cfg =
      .ok ⟨cfg.OMCLIProxyPath, cfg.EnhancedSecurityMode, sha256 fi.content⟩ := by
  have hall : allowedOMCLIProxyBinary fs
      ⟨cfg.OMCLIProxyPath, cfg.EnhancedSecurityMode, []⟩ = .ok () := by
    simp [allowedOMCLIProxyBinary, hname, hfi, hsym]
  have hsha := fileSha256_ok_intro fs cfg.OMCLIProxyPath fi hfi hr hcl
  simp [NewOMReporter, hall, hsha]

/-- Everything a successful construction guarantees: expected base name, the
config fields copied into the client, the stored checksum equal to the one a
fresh run computes, and an existing non-symlink entry behind the path. -/
theorem newOMReporter_ok_elim (fs : FS) (cfg : Config) (om : OMReport)
    (h : NewOMReporter fs cfg = .ok om) :
    filepathBase cfg.OMCLIProxyPath = DefaultOMCLIProxyBinaryName ∧
    om.omCLIProxyPath = cfg.OMCLIProxyPath ∧
    om.enhancedSecurityMode = cfg.EnhancedSecurityMode ∧
    fileSha256 fs cfg.OMCLIProxyPath = .ok om.sha256Checksum ∧
    ∃ fi, fs cfg.OMCLIProxyPath = some fi ∧ fi.mode &&& ModeSymlink = 0 := by
  unfold NewOMReporter at h
  split at h
  · exact absurd h (by simp)
  · rename_i u hall
    split at h
    · exact absurd h (by simp)
    · rename_i checksum hsha
      injection h with h2
      subst h2
      refine ⟨?_, rfl, rfl, hsha, ?_⟩
      · exact allowed_ok_name fs _ u hall
      · exact allowed_ok_entry fs _ u hall

/-! ## The claims -/

/-- C1: the spec asserts the file handle acquired by `fileSha256` is released
on every exit path, including a midstream read failure. The code contradicts
this: on the entry whose read fails midway the handle is acquired, the read
error is returned to the caller, and `Close` is never invoked on the handle,
while on the success path it is. -/
theorem c1_read_failure_leaks_file_handle :
    (fileSha256Run (some readFailFile)).opened = true ∧
    (fileSha256Run (some readFailFile)).closed = false ∧
    fileSha256 (singleFileFS "omcliproxy" readFailFile) "omcliproxy" = .error .readError ∧
    (fileSha256Run (some (plainFile fooBytes))).closed = true :=
  ⟨rfl, rfl, rfl, rfl⟩

/-- C2 as stated is false on the code: a directory — not a regular file —
named `omcliproxy` passes `allowedOMCLIProxyBinary`. -/
theorem c2_directory_passes_validation :
    dirFile.mode &&& ModeDir ≠ 0 ∧
    dirFS dirOM.omCLIProxyPath = some dirFile ∧
    allowedOMCLIProxyBinary dirFS dirOM = .ok () :=
  ⟨by decide, rfl, rfl⟩

/-- C2 amended: validation checks only the base name and the symlink bit; any
existing non-symlink entry whose base name is `omcliproxy` passes validation,
whether or not it is a regular file. -/
theorem c2_validation_ignores_file_type (fs : FS) (om : OMReport) (fi : FileInfo)
    (hname : filepathBase om.omCLIProxyPath = DefaultOMCLIProxyBinaryName)
    (hfi : fs om.omCLIProxyPath = some fi)
    (hsym : fi.mode &&& ModeSymlink = 0) :
    allowedOMCLIProxyBinary fs om = .ok () := by
  simp [allowedOMCLIProxyBinary, hname, hfi, hsym]

/-- Witness for the amended C2 at the concrete directory entry. -/
theorem c2_validation_ignores_file_type_witness :
    allowedOMCLIProxyBinary dirFS dirOM = .ok () :=
  c2_validation_ignores_file_type dirFS dirOM dirFile (by decide) rfl (by decide)

/-- C3: a constructed client is never mutated: `Report` leaves the receiver
unchanged on any filesystem and argument list (the default-path fallback is
unreachable because construction forces the base name `omcliproxy`, so the
stored path is non-empty), and the tamper check against the unmodified
filesystem reports not suspicious; being pure, repeating it changes nothing. -/
theorem c3_constructed_client_state_immutable (fs : FS) (cfg : Config) (om : OMReport)
    (hok : NewOMReporter fs cfg = .ok om) :
    (∀ (fs2 : FS) (args : List String), (Report fs2 om args).om' = om) ∧
    SuspiciousOMCLIProxyBinary fs om = .ok () := by
  obtain ⟨hname, hpath, hmode, hsha, _⟩ := newOMReporter_ok_elim fs cfg om hok
  have hne : om.omCLIProxyPath ≠ "" := by
    rw [hpath]
    exact path_ne_empty_of_base _ hname
  constructor
  · intro fs2 args
    unfold Report
    simp only [if_neg hne]
    cases hm : om.enhancedSecurityMode with
    | false => simp [hm]
    | true =>
      simp only [hm, if_true]
      cases hsusp : SuspiciousOMCLIProxyBinary fs2 om with
      | error e => simp [hsusp]
      | ok u => simp [hsusp]
  · unfold SuspiciousOMCLIProxyBinary
    rw [hpath, hsha]
    simp

/-- Witness for C3 at the concrete `foo` client. -/
theorem c3_constructed_client_state_immutable_witness :
    (Report fooFS fooOM ["chassis"]).om' = fooOM ∧
    SuspiciousOMCLIProxyBinary fooFS fooOM = .ok () :=
  ⟨(c3_constructed_client_state_immutable fooFS fooCfg fooOM rfl).1 fooFS ["chassis"],
   (c3_constructed_client_state_immutable fooFS fooCfg fooOM rfl).2⟩

/-- C4: when the fresh checksum run succeeds, the tamper check returns nil
exactly when the current digest equals the stored baseline, and on a mismatch
it returns the error carrying the current and the baseline digest; when the
checksum run fails, that failure is propagated instead. -/
theorem c4_tamper_check_iff_checksum_equal (fs : FS) (om : OMReport) :
    (∀ current, fileSha256 fs om.omCLIProxyPath = .ok current →
      ((SuspiciousOMCLIProxyBinary fs om = .ok () ↔ current = om.sha256Checksum) ∧
       (current ≠ om.sha256Checksum →
         SuspiciousOMCLIProxyBinary fs om =
           .error (.checksumMismatch current om.sha256Checksum)))) ∧
    (∀ e, fileSha256 fs om.omCLIProxyPath = .error e →
      SuspiciousOMCLIProxyBinary fs om = .error e) := by
  constructor
  · intro current hsha
    unfold SuspiciousOMCLIProxyBinary
    rw [hsha]
    by_cases hc : current = om.sha256Checksum
    · simp [hc]
    · simp [hc]
  · intro e hsha
    unfold SuspiciousOMCLIProxyBinary
    rw [hsha]

/-- Witness for C4: the altered `bar` file against the `foo` baseline yields
the mismatch error carrying both digests. -/
theorem c4_tamper_check_iff_checksum_equal_witness :
    SuspiciousOMCLIProxyBinary barFS fooOM =
      .error (.checksumMismatch (sha256 barBytes) (sha256 fooBytes)) :=
  ((c4_tamper_check_iff_checksum_equal barFS fooOM).1 (sha256 barBytes) rfl).2 (by decide)

/-- C5: on a valid, non-symlink, readable reference with the expected base
name, construction succeeds, and a fresh fingerprint run on the same path
yields exactly the stored baseline, a 256-bit (32-byte) digest of the file
content. -/
theorem c5_baseline_matches_fresh_fingerprint (fs : FS) (cfg : Config) (fi : FileInfo)
    (hname : filepathBase cfg.OMCLIProxyPath = DefaultOMCLIProxyBinaryName)
    (hfi : fs cfg.OMCLIProxyPath = some fi)
    (hsym : fi.mode &&& ModeSymlink = 0)
    (hr : fi.readFails = false) (hcl : fi.closeFails = false) :
    ∃ om : OMReport, NewOMReporter fs cfg = .ok om ∧
      fileSha256 fs cfg.OMCLIProxyPath = .ok om.sha256Checksum ∧
      om.sha256Checksum = sha256 fi.content ∧
      om.sha256Checksum.length = 32 := by
  refine ⟨⟨cfg.OMCLIProxyPath, cfg.EnhancedSecurityMode, sha256 fi.content⟩,
    newOMReporter_ok_intro fs cfg fi hname hfi hsym hr hcl,
    fileSha256_ok_intro fs cfg.OMCLIProxyPath fi hfi hr hcl, rfl, sha256_length _⟩

/-- Witness for C5 at the concrete `foo` file. -/
theorem c5_baseline_matches_fresh_fingerprint_witness :
    ∃ om : OMReport, NewOMReporter fooFS fooCfg = .ok om ∧
      fileSha256 fooFS fooCfg.OMCLIProxyPath = .ok om.sha256Checksum ∧
      om.sha256Checksum = sha256 (plainFile fooBytes).content ∧
      om.sha256Checksum.length = 32 :=
  c5_baseline_matches_fresh_fingerprint fooFS fooCfg (plainFile fooBytes)
    (by decide) rfl (by decide) rfl rfl

/-- C6: whenever the base name of the configured path is not `omcliproxy`,
construction fails with the name error on every filesystem whatsoever — in
particular regardless of whether the path exists — so no client is produced. -/
theorem c6_wrong_base_name_always_fails (fs : FS) (cfg : Config)
    (hname : filepathBase cfg.OMCLIProxyPath ≠ DefaultOMCLIProxyBinaryName) :
    NewOMReporter fs cfg = .error .badName := by
  have hall : allowedOMCLIProxyBinary fs
      ⟨cfg.OMCLIProxyPath, cfg.EnhancedSecurityMode, []⟩ = .error .badName := by
    simp [allowedOMCLIProxyBinary, hname]
  simp [NewOMReporter, hall]

/-- Witness for C6: a readable, valid-content file named `proxybinary` is
still rejected at construction. -/
theorem c6_wrong_base_name_always_fails_witness :
    NewOMReporter (singleFileFS "proxybinary" (plainFile fooBytes))
      ⟨"proxybinary", true⟩ = .error .badName :=
  c6_wrong_base_name_always_fails _ _ (by decide)

/-- C7: when the entry behind the configured path is a symbolic link,
construction never yields a client, even for valid resolved content, and when
the base name is also the expected one the error is the symlink rejection. -/
theorem c7_symlink_always_fails (fs : FS) (cfg : Config) (fi : FileInfo)
    (hfi : fs cfg.OMCLIProxyPath = some fi)
    (hsym : fi.mode &&& ModeSymlink ≠ 0) :
    (∀ om : OMReport, NewOMReporter fs cfg ≠ .ok om) ∧
    (filepathBase cfg.OMCLIProxyPath = DefaultOMCLIProxyBinaryName →
      NewOMReporter fs cfg = .error (.isSymlink cfg.OMCLIProxyPath)) := by
  constructor
  · intro om hok
    obtain ⟨_, _, _, _, fi2, hfi2, hsym2⟩ := newOMReporter_ok_elim fs cfg om hok
    rw [hfi] at hfi2
    injection hfi2 with h2
    rw [← h2] at hsym2
    exact hsym hsym2
  · intro hname
    have hall : allowedOMCLIProxyBinary fs
        ⟨cfg.OMCLIProxyPath, cfg.EnhancedSecurityMode, []⟩ =
          .error (.isSymlink cfg.OMCLIProxyPath) := by
      simp [allowedOMCLIProxyBinary, hname, hfi, hsym]
    simp [NewOMReporter, hall]

/-- Witness for C7: the symlink named `omcliproxy` with valid `foo` content is
rejected with the symlink error. -/
theorem c7_symlink_always_fails_witness :
    NewOMReporter linkFS ⟨"omcliproxy", true⟩ = .error (.isSymlink "omcliproxy") :=
  (c7_symlink_always_fails linkFS ⟨"omcliproxy", true⟩ linkFile rfl (by decide)).2 (by decide)

/-- C9: a client constructed with enhanced security mode off runs no checksum
during `Report` and proceeds to the invocation unconditionally, on every
filesystem and every argument list, leaving the receiver unchanged. -/
theorem c9_disabled_mode_skips_tamper_check (fs : FS) (cfg : Config) (om : OMReport)
    (hmode : cfg.EnhancedSecurityMode = false)
    (hok : NewOMReporter fs cfg = .ok om) :
    ∀ (fs2 : FS) (args : List String),
      Report fs2 om args =
        ⟨om, .invoked om.omCLIProxyPath
          (DefaultOMReportCommandName :: args ++ ["-fmt", "xml"]), 0⟩ := by
  obtain ⟨hname, hpath, henh, _, _⟩ := newOMReporter_ok_elim fs cfg om hok
  have hne : om.omCLIProxyPath ≠ "" := by
    rw [hpath]
    exact path_ne_empty_of_base _ hname
  have hmf : om.enhancedSecurityMode = false := by rw [henh, hmode]
  intro fs2 args
  unfold Report
  simp [if_neg hne, hmf]

/-- Witness for C9: the low-assurance client still invokes the tool against a
filesystem holding altered content, with no checksum computed. -/
theorem c9_disabled_mode_skips_tamper_check_witness :
    Report barFS fooOMOff ["about"] =
      ⟨fooOMOff, .invoked "omcliproxy" ["omreport", "about", "-fmt", "xml"], 0⟩ :=
  c9_disabled_mode_skips_tamper_check fooFS fooCfgOff fooOMOff rfl rfl barFS ["about"]

/-- C8 as stated — any alteration of the bytes makes the next tamper check
report a mismatch — is false of a 256-bit content digest: by pigeonhole over
the finite digest space there are two distinct contents with one digest, so
some client, construction filesystem and altered filesystem exist for which
the content changed yet the next tamper check still reports not suspicious. -/
theorem c8_collision_defeats_alteration_detection :
    ∃ (fs fs2 : FS) (cfg : Config) (om : OMReport) (fi fi2 : FileInfo),
      NewOMReporter fs cfg = .ok om ∧
      fs cfg.OMCLIProxyPath = some fi ∧
      fs2 cfg.OMCLIProxyPath = some fi2 ∧
      fi2.readFails = false ∧ fi2.closeFails = false ∧
      fi2.content ≠ fi.content ∧
      SuspiciousOMCLIProxyBinary fs2 om = .ok () := by
  obtain ⟨c, c2, hne, hcol⟩ := sha256_collision
  refine ⟨singleFileFS "omcliproxy" (plainFile c),
    singleFileFS "omcliproxy" (plainFile c2),
    ⟨"omcliproxy", true⟩, ⟨"omcliproxy", true, sha256 c⟩,
    plainFile c, plainFile c2, ?_, rfl, rfl, rfl, rfl, ?_, ?_⟩
  · exact newOMReporter_ok_intro _ _ (plainFile c) (by decide) rfl (by simp [plainFile]) rfl rfl
  · exact fun h => hne h.symm
  · simp [SuspiciousOMCLIProxyBinary, fileSha256, fileSha256Run, singleFileFS,
      plainFile, ← hcol]

/-- C8 amended: the fingerprint is a function of the byte content alone, so
after an alteration whose digest differs from the original digest (the case
for every feasibly constructible alteration) the next tamper check reports
the mismatch with both digests, and once the exact original bytes are
restored — under any modification time, inode, or mode — the next tamper
check reports not suspicious again. -/
theorem c8_tamper_check_pure_function_of_content
    (fs fs2 : FS) (cfg : Config) (om : OMReport) (fi fi2 : FileInfo)
    (hok : NewOMReporter fs cfg = .ok om)
    (hfi : fs cfg.OMCLIProxyPath = some fi)
    (hfi2 : fs2 cfg.OMCLIProxyPath = some fi2)
    (hr2 : fi2.readFails = false) (hcl2 : fi2.closeFails = false) :
    (sha256 fi2.content ≠ sha256 fi.content →
      SuspiciousOMCLIProxyBinary fs2 om =
        .error (.checksumMismatch (sha256 fi2.content) (sha256 fi.content))) ∧
    (fi2.content = fi.content → SuspiciousOMCLIProxyBinary fs2 om = .ok ()) := by
  obtain ⟨hname, hpath, hmode, hsha, _⟩ := newOMReporter_ok_elim fs cfg om hok
  have hbase : om.sha256Checksum = sha256 fi.content :=
    (fileSha256_ok_content fs cfg.OMCLIProxyPath fi om.sha256Checksum hfi hsha).2.2
  have hcur : fileSha256 fs2 om.omCLIProxyPath = .ok (sha256 fi2.content) := by
    rw [hpath]
    exact fileSha256_ok_intro fs2 cfg.OMCLIProxyPath fi2 hfi2 hr2 hcl2
  constructor
  · intro hd
    unfold SuspiciousOMCLIProxyBinary
    rw [hcur, hbase]
    simp [hd]
  · intro hc
    unfold SuspiciousOMCLIProxyBinary
    rw [hcur, hbase, hc]
    simp

/-- Witness for the amended C8: altering `foo` to `bar` yields the mismatch
error with both digests; restoring the exact `foo` bytes under a different
modification time and inode yields not suspicious again. -/
theorem c8_tamper_check_pure_function_of_content_witness :
    SuspiciousOMCLIProxyBinary barFS fooOM =
      .error (.checksumMismatch (sha256 barBytes) (sha256 fooBytes)) ∧
    SuspiciousOMCLIProxyBinary fooFSAltMeta fooOM = .ok () :=
  ⟨(c8_tamper_check_pure_function_of_content fooFS barFS fooCfg fooOM
      (plainFile fooBytes) (plainFile barBytes) rfl rfl rfl rfl rfl).1 (by decide),
   (c8_tamper_check_pure_function_of_content fooFS fooFSAltMeta fooCfg fooOM
      (plainFile fooBytes) fooFileAltMeta rfl rfl rfl rfl rfl).2 rfl⟩

/-- C10: every status, state, bus-protocol or layout code outside the known
enumerated values is rendered through the Go integer-to-string conversion, so
a small unknown code appears as the character with that code point — status
65 renders as `Unknown status code A`, not as decimal 65. -/
theorem c10_unknown_codes_render_as_rune :
    (∀ s : Int, s ≠ StatusOK → s ≠ StatusNonCritical → s ≠ StatusCritical →
      statusString s = "Unknown status code " ++ goStringOfInt s) ∧
    (∀ s : Int, s ≠ StateReady → s ≠ StateFailed → s ≠ StateOnline →
      s ≠ StateOffline → s ≠ StateDegraded → s ≠ StateNonRAID →
      s ≠ StateReplacing → s ≠ StateRebuilding →
      s ≠ StateBackgroundInitialization → s ≠ StateForeign → s ≠ StateClear →
      s ≠ StateDegradedRedundancy →
      stateString s = "Unknown state code " ++ goStringOfInt s) ∧
    (∀ b : Int, b ≠ BusProtocolSCSI → b ≠ BusProtocolIDE → b ≠ BusProtocolSATA →
      b ≠ BusProtocolSAS → b ≠ BusProtocolPCIe →
      busProtocolString b = "Unknown bus protocol code " ++ goStringOfInt b) ∧
    (∀ l : Int, l ≠ LayoutRAID0 → l ≠ LayoutRAID1 → l ≠ LayoutRAID5 →
      l ≠ LayoutRAID6 → l ≠ LayoutRAID60 →
      layoutString l = "Unknown layout code " ++ goStringOfInt l) ∧
    statusString 65 = "Unknown status code A" ∧
    statusString 65 ≠ "Unknown status code 65" := by
  refine ⟨?_, ?_, ?_, ?_, by decide, by decide⟩
  · intro s h1 h2 h3
    simp [statusString, h1, h2, h3]
  · intro s h1 h2 h3 h4 h5 h6 h7 h8 h9 h10 h11 h12
    simp [stateString, h1, h2, h3, h4, h5, h6, h7, h8, h9, h10, h11, h12]
  · intro b h1 h2 h3 h4 h5
    simp [busProtocolString, h1, h2, h3, h4, h5]
  · intro l h1 h2 h3 h4 h5
    simp [layoutString, h1, h2, h3, h4, h5]

/-- Witness for C10 at the concrete unknown code 65 for all four enums. -/
theorem c10_unknown_codes_render_as_rune_witness :
    statusString 65 = "Unknown status code " ++ goStringOfInt 65 ∧
    stateString 65 = "Unknown state code " ++ goStringOfInt 65 ∧
    busProtocolString 65 = "Unknown bus protocol code " ++ goStringOfInt 65 ∧
    layoutString 65 = "Unknown layout code " ++ goStringOfInt 65 :=
  ⟨c10_unknown_codes_render_as_rune.1 65 (by decide) (by decide) (by decide),
   c10_unknown_codes_render_as_rune.2.1 65 (by decide) (by decide) (by decide)
     (by decide) (by decide) (by decide) (by decide) (by decide) (by decide)
     (by decide) (by decide) (by decide),
   c10_unknown_codes_render_as_rune.2.2.1 65 (by decide) (by decide) (by decide)
     (by decide) (by decide),
   c10_unknown_codes_render_as_rune.2.2.2.1 65 (by decide) (by decide) (by decide)
     (by decide) (by decide)⟩

end Omreport
